import Mathlib

/-!
Verification of the palmera dynamic table-access engine against its
natural-language specification.  The Rust sources are shallowly embedded:
pure query-building and claim-handling code becomes Lean functions, the
clock and the random token-id generator become explicit parameters, and
machine integers become `Int`/`Nat`.
-/

namespace Palmera

/-! ## Value mapper (src/palmera-rest/src/utils.rs)

serde_json numbers (default feature set) are one of three variants:
a non-negative 64-bit integer, a negative 64-bit integer, or a finite
64-bit float.  The code under verification never computes with float
values, it only moves them around, so a float is modelled by its
provenance: either the bits of a float literal stored in the JSON
document, or the (lossy) conversion of an integer performed by
serde_json `as_f64`. -/

inductive F64 where
  | ofPosInt (n : Nat)
  | ofNegInt (i : Int)
  | lit (bits : Nat)
deriving DecidableEq, Repr

/-- Model of serde_json `Number` (default features): PosInt holds a u64,
NegInt holds a negative i64, Float holds a finite f64. -/
inductive JNum where
  | posInt (n : Nat)
  | negInt (i : Int)
  | float (bits : Nat)
deriving DecidableEq, Repr

def i64Max : Nat := 9223372036854775807

/-- serde_json `Number::as_i64`: succeeds for NegInt, and for PosInt not
exceeding `i64::MAX`; always fails for the Float variant. -/
def JNum.as_i64 : JNum → Option Int
  | .posInt n => if n ≤ i64Max then some (Int.ofNat n) else none
  | .negInt i => some i
  | .float _ => none

/-- serde_json `Number::as_f64` (default features): always succeeds; the
integer variants are converted (lossily) to f64. -/
def JNum.as_f64 : JNum → Option F64
  | .posInt n => some (.ofPosInt n)
  | .negInt i => some (.ofNegInt i)
  | .float b => some (.lit b)

/-- Display form of a serde_json number, used by the string fallback of
`json_to_sea` (`n.to_string()`). -/
def JNum.toLiteral : JNum → String
  | .posInt n => toString n
  | .negInt i => toString i
  | .float b => toString b

/-- Model of `serde_json::Value`. -/
inductive Json where
  | null
  | bool (b : Bool)
  | num (n : JNum)
  | str (s : String)
  | arr (xs : List Json)
  | obj (kvs : List (String × Json))

/-- Model of `sea_query::Value` restricted to the variants that
`json_to_sea` produces.  `SeaValue::Bool(None).as_null()` in the source
returns the same `Bool(None)` value, i.e. a boolean-typed SQL NULL. -/
inductive SeaValue where
  | boolV (b : Option Bool)
  | bigIntV (i : Option Int)
  | doubleV (f : Option F64)
  | stringV (s : Option String)
  | jsonV (j : Option Json)

/-- Discriminator for the parameter kind a `SeaValue` carries. -/
inductive SeaKind where
  | bool
  | bigInt
  | double
  | str
  | json
deriving DecidableEq, Repr

def SeaValue.kind : SeaValue → SeaKind
  | .boolV _ => .bool
  | .bigIntV _ => .bigInt
  | .doubleV _ => .double
  | .stringV _ => .str
  | .jsonV _ => .json

/-- Embedding of `json_to_sea` (src/palmera-rest/src/utils.rs, lines 4-21). -/
def json_to_sea : Json → SeaValue
  | .null => .boolV none
  | .bool b => .boolV (some b)
  | .num n =>
    match n.as_i64 with
    | some i => .bigIntV (some i)
    | none =>
      match n.as_f64 with
      | some f => .doubleV (some f)
      | none => .stringV (some n.toLiteral)
  | .str s => .stringV (some s)
  | .arr xs => .jsonV (some (.arr xs))
  | .obj kvs => .jsonV (some (.obj kvs))

/-! ## Insert builder (src/palmera-rest/src/router.rs, `create`)

The `create` handler collects multipart text fields into a map of
column-name/text pairs, then builds
`Query::insert().into_table((schema, table)).columns(..).values(..)`
with a `RETURNING row_to_json(table.*) as data` clause and renders it
with `PostgresQueryBuilder`.  The embedding below follows that dataflow:
each multipart value is a text field, turned into a JSON string by
`serde_json::to_value` and then into a sea_query parameter by
`json_to_sea`.  Identifier rendering follows sea_query: identifiers are
wrapped in double quotes with embedded double quotes doubled; string
parameters are wrapped in single quotes with embedded single quotes
doubled.  The map iteration order of the Rust `HashMap` is represented
by the order of the input list. -/

def escapeDoubleQuotes (s : String) : String :=
  String.join (s.toList.map fun c => if c = '\"' then "\"\"" else String.singleton c)

/-- sea_query identifier rendering for Postgres (`Alias` / `Iden::prepare`):
double-quote the name, doubling any embedded double quote. -/
def quoteIden (s : String) : String :=
  "\"" ++ escapeDoubleQuotes s ++ "\""

def escapeSingleQuotes (s : String) : String :=
  String.join (s.toList.map fun c => if c = '\'' then "''" else String.singleton c)

/-- Display form of a double, by provenance; the builder claims never
inspect this value (no double parameter occurs on the `create` path). -/
def F64.render : F64 → String
  | .ofPosInt n => toString n
  | .ofNegInt i => toString i
  | .lit b => toString b

mutual

/-- Serialization of a JSON document, used when a `Json` parameter is
rendered into a statement (string escaping limited to quotes and
backslashes, the cases the claims exercise). -/
def jsonRender : Json → String
  | .null => "null"
  | .bool true => "true"
  | .bool false => "false"
  | .num n => n.toLiteral
  | .str s => "\"" ++ escapeDoubleQuotes s ++ "\""
  | .arr xs => "[" ++ jsonRenderList xs ++ "]"
  | .obj kvs => "\x7b" ++ jsonRenderObj kvs ++ "\x7d"

def jsonRenderList : List Json → String
  | [] => ""
  | [x] => jsonRender x
  | x :: y :: rest => jsonRender x ++ "," ++ jsonRenderList (y :: rest)

def jsonRenderObj : List (String × Json) → String
  | [] => ""
  | [(k, v)] => "\"" ++ k ++ "\":" ++ jsonRender v
  | (k, v) :: y :: rest => "\"" ++ k ++ "\":" ++ jsonRender v ++ "," ++ jsonRenderObj (y :: rest)

end

/-- Rendering of one bound value into Postgres SQL text, following
sea_query `Value` serialization. -/
def renderParam : SeaValue → String
  | .boolV none => "NULL"
  | .boolV (some true) => "TRUE"
  | .boolV (some false) => "FALSE"
  | .bigIntV none => "NULL"
  | .bigIntV (some i) => toString i
  | .doubleV none => "NULL"
  | .doubleV (some f) => f.render
  | .stringV none => "NULL"
  | .stringV (some s) => "'" ++ escapeSingleQuotes s ++ "'"
  | .jsonV none => "NULL"
  | .jsonV (some j) => "'" ++ escapeSingleQuotes (jsonRender j) ++ "'"

/-- Errors of sea_query `InsertStatement::values`: the only failure is a
column/value count mismatch.  No other error exists on this path; in
particular no identifier-shape or empty-write-set check exists. -/
inductive SeaQueryError where
  | colValNumMismatch (colLen valLen : Nat)
deriving DecidableEq, Repr

/-- Embedding of the statement-building core of `create`
(src/palmera-rest/src/router.rs, lines 58-75): unzip the field map into
columns (`Alias::new(k)`) and values (`json_to_sea` of the text), run
sea_query `values` (which fails only on a count mismatch and stores no
source row when the value list is empty), and render the insert with
the raw-text `RETURNING row_to_json(table.*) as data` clause, in which
the table name from the URL path is interpolated unquoted. -/
def createInsertSql (schema table : String) (fields : List (String × String)) :
    Except SeaQueryError String :=
  let columns := fields.map Prod.fst
  let values := fields.map fun f => renderParam (json_to_sea (.str f.2))
  if columns.length ≠ values.length then
    .error (.colValNumMismatch columns.length values.length)
  else
    .ok ("INSERT INTO " ++ quoteIden schema ++ "." ++ quoteIden table ++
      (if values.isEmpty then " ()"
       else
         " (" ++ String.intercalate ", " (columns.map quoteIden) ++ ") VALUES (" ++
           String.intercalate ", " values ++ ")") ++
      " RETURNING row_to_json(" ++ table ++ ".*) as data")

/-! ## Claims issuer and verifier (src/palmera-auth/src/jwt.rs)

`chrono` instants and durations are modelled as milliseconds (`Int`);
`Uuid` values as strings.  The clock read (`Utc::now()`) inside `new`
and `verify`, and the fresh token id (`Uuid::new_v4()`) inside `new`,
become explicit parameters.  The HMAC-SHA256 primitive of the external
`jwt`/`hmac` crates is modelled as an ideal MAC: a tag is determined by
the key and the signed claims payload, and signature verification
succeeds exactly when the tag recomputed from the presented key and
payload matches (claims serialization is injective). -/

structure JWTClaims where
  subject : String
  expiration : Int
  issued_at : Int
  issuer : String
  audience : String
  not_before_time : Int
  jwt_token_id : String
deriving DecidableEq, Repr

/-- Embedding of `JWTClaims::new` (src/palmera-auth/src/jwt.rs, lines
75-87): `now` is the clock reading and `jti` the freshly generated
token id.  The not-before skew is the literal
`Duration::milliseconds(250)`. -/
def JWTClaims.new (subject : String) (exp_duration : Int) (issuer audience : String)
    (now : Int) (jti : String) : JWTClaims :=
  { subject := subject
    expiration := now + exp_duration
    issued_at := now
    issuer := issuer
    audience := audience
    not_before_time := now - 250
    jwt_token_id := jti }

/-- Ideal-MAC tag: HMAC-SHA256 over the serialized claims under a key. -/
structure HmacSha256Tag where
  key : String
  message : JWTClaims
deriving DecidableEq, Repr

/-- A signed compact token: payload plus signature segment. -/
structure Token where
  claims : JWTClaims
  signature : HmacSha256Tag
deriving DecidableEq, Repr

/-- Embedding of `JWTClaims::sign`: serialize the claims and attach the
HMAC tag computed under `key`. -/
def JWTClaims.sign (c : JWTClaims) (key : String) : Token :=
  { claims := c, signature := { key := key, message := c } }

/-- Failure modes of `verify`: the underlying `verify_with_key`
signature check, then the two explicit time checks.  No audience or
issuer check exists in the source. -/
inductive VerifyError where
  | signatureInvalid
  | tokenExpired
  | tokenNotYetValid
deriving DecidableEq, Repr

/-- Embedding of `JWTClaims::verify` (src/palmera-auth/src/jwt.rs, lines
114-132): check the signature, then fail when `now > expiration`, then
when `now < not_before_time`, otherwise return the decoded claims.
`now` is the clock reading taken inside `verify`. -/
def JWTClaims.verify (token : Token) (key : String) (now : Int) :
    Except VerifyError JWTClaims :=
  if token.signature = { key := key, message := token.claims } then
    if now > token.claims.expiration then .error .tokenExpired
    else if now < token.claims.not_before_time then .error .tokenNotYetValid
    else .ok token.claims
  else .error .signatureInvalid

/-! ## Schema catalog reader (src/palmera-database/src/sqlite/schemas.rs)

`get_table_info` issues one SQL query that aggregates, for the named
table, the enabled policies and the columns of
`pragma_table_xinfo(name)` left-joined with
`pragma_foreign_key_list(name)` on `fkl."from" = txi.name`, with index
membership computed per column by `group_concat` over the
`pragma_index_list`/`pragma_index_info` join.  The embedding represents
the catalog state seen by that query as explicit lists of pragma rows
and evaluates the query's relational algebra over them: the
`json_group_array` aggregation follows SQLite's scan order, which for
`pragma_table_xinfo` is the column-id (position) order in which the
rows are supplied. -/

/-- One row of `pragma_table_xinfo`: position, name, declared type,
not-null flag, default, primary-key ordinal (0 when not part of the
primary key), and hidden kind (0 normal, 1 virtual, 2 stored). -/
structure TxiRow where
  cid : Int
  name : String
  declType : String
  notnull : Int
  dflt_value : Option String
  pk : Int
  hidden : Int
deriving DecidableEq, Repr

/-- One row of `pragma_foreign_key_list`.  `fromCol` renders the pragma
column `"from"` (a Lean keyword); `toCol` renders `"to"`, which is NULL
when the foreign key references the parent primary key implicitly. -/
structure FklRow where
  id : Int
  seq : Int
  parentTable : String
  fromCol : String
  toCol : Option String
  on_update : String
  on_delete : String
deriving DecidableEq, Repr

/-- One index as seen through `pragma_index_list` joined with
`pragma_index_info`: the index name and its member column names. -/
structure IndexRow where
  idxName : String
  cols : List String
deriving DecidableEq, Repr

/-- Embedding of the `ColumnDetails` row type deserialized from the
aggregated JSON document (src/palmera-database/src/sqlite/schemas.rs,
lines 28-44). -/
structure ColumnDetails where
  column_id : Option Int
  column_name : String
  data_type : String
  is_not_null : Int
  default_value : Option String
  is_primary_key : Int
  primary_key_order : Option Int
  generated_column_type : Option Int
  is_foreign_key : Int
  reference_table : Option String
  reference_column : Option String
  foreign_key_on_update : Option String
  foreign_key_on_delete : Option String
  part_of_index : Option String
deriving DecidableEq, Repr

/-- The scalar subquery computing `part_of_index` for one column:
`group_concat(il.name)` over the indexes whose member columns include
the column name, NULL when no index matches. -/
def partOfIndex (indexes : List IndexRow) (col : String) : Option String :=
  let names := (indexes.filter fun ix => ix.cols.contains col).map IndexRow.idxName
  if names.isEmpty then none else some (String.intercalate "," names)

/-- One output row of the column aggregation, built from a
`pragma_table_xinfo` row and the (optional) matched foreign-key row,
following the `json_object` in the query text: `is_primary_key` is
`CASE WHEN txi.pk > 0 THEN 1 ELSE 0 END`, `primary_key_order` is
`txi.pk` itself, and the foreign-key fields are the (NULL-able) fields
of the joined `fkl` row. -/
def mkColumnRow (t : TxiRow) (fk : Option FklRow) (indexes : List IndexRow) : ColumnDetails :=
  { column_id := some t.cid
    column_name := t.name
    data_type := t.declType
    is_not_null := t.notnull
    default_value := t.dflt_value
    is_primary_key := if t.pk > 0 then 1 else 0
    primary_key_order := some t.pk
    generated_column_type := some t.hidden
    is_foreign_key := match fk with | some _ => 1 | none => 0
    reference_table := fk.map FklRow.parentTable
    reference_column := fk.bind FklRow.toCol
    foreign_key_on_update := fk.map FklRow.on_update
    foreign_key_on_delete := fk.map FklRow.on_delete
    part_of_index := partOfIndex indexes t.name }

/-- The `LEFT JOIN pragma_foreign_key_list ... ON fkl."from" = txi.name`
expansion for one `pragma_table_xinfo` row: one output row per matching
foreign-key row, or a single row with NULL foreign-key fields when none
matches. -/
def joinRows (t : TxiRow) (fkl : List FklRow) (indexes : List IndexRow) : List ColumnDetails :=
  match fkl.filter fun f => f.fromCol == t.name with
  | [] => [mkColumnRow t none indexes]
  | ms => ms.map fun f => mkColumnRow t (some f) indexes

/-- Embedding of the `columns` aggregation of `get_table_info`
(src/palmera-database/src/sqlite/schemas.rs, lines 76-101): the
left-join expansion of every catalog column row, aggregated in catalog
scan order. -/
def columnsQuery (txi : List TxiRow) (fkl : List FklRow) (indexes : List IndexRow) :
    List ColumnDetails :=
  match txi with
  | [] => []
  | t :: ts => joinRows t fkl indexes ++ columnsQuery ts fkl indexes

/-! ## Policy store and predicate merge

The repository declares the policy model — the `_policies` table
(src/palmera-database/src/sqlite/helpers.rs, `create_policy_table`) and
the `Policy` row type together with the `is_enabled = 1` read filter
(src/palmera-database/src/sqlite/schemas.rs) — but the query-builder
component that merges policy predicates into statements is not among
the provided sources.  The merge itself is therefore modelled from the
spec (section 4.2) on top of the source `Policy` row type. -/

/-- Embedding of the `Policy` row type
(src/palmera-database/src/sqlite/schemas.rs, lines 16-26), the rows the
catalog query reads from the `_policies` table declared in
`create_policy_table`: `policy_type` is `PERMISSIVE` or `RESTRICTIVE`,
`operation` is one of `select`, `update`, `insert`, `delete`, `all`,
and at least one of `using_expr`/`check_expr` is present. -/
structure Policy where
  id : Int
  name : Option String
  description : Option String
  is_enabled : Int
  operation : Option String
  policy_type : Option String
  using_expr : Option String
  check_expr : Option String
deriving DecidableEq, Repr

/-- Boolean SQL fragments and their combinations; an `atom` is one
opaque policy expression.  Evaluation is over an environment assigning
a truth value to each fragment. -/
inductive BExpr where
  | atom (sql : String)
  | tt
  | ff
  | and (a b : BExpr)
  | or (a b : BExpr)
deriving DecidableEq, Repr

def BExpr.eval (env : String → Bool) : BExpr → Bool
  | .atom s => env s
  | .tt => true
  | .ff => false
  | .and a b => a.eval env && b.eval env
  | .or a b => a.eval env || b.eval env

/-- Modelled from the spec: `policies_for(table, operation)` keeps only
enabled rows whose operation matches literally or via the wildcard
`all` (spec section 4.2); the table filter is already applied by the
catalog query that produced the rows. -/
def matchesOperation (p : Policy) (op : String) : Bool :=
  p.is_enabled == 1 && (p.operation == some op || p.operation == some "all")

def isPermissive (p : Policy) : Bool :=
  p.policy_type == some "PERMISSIVE"

/-- Modelled from the spec: the expression a policy contributes to an
operation — `check_expr` constrains inserted values, `using_expr`
filters visible rows for the other operations; a policy with no
fragment for the operation contributes no restriction. -/
def policyExprFor (op : String) (p : Policy) : BExpr :=
  if op == "insert" then
    match p.check_expr with
    | some e => .atom e
    | none => .tt
  else
    match p.using_expr with
    | some e => .atom e
    | none => .tt

/-- Modelled from the spec: the OR-combination `p1 OR p2 OR ...` of the
permissive expressions; with no permissive expression the predicate
defaults to deny (false). -/
def orAll : List BExpr → BExpr
  | [] => .ff
  | [e] => e
  | e :: e2 :: rest => .or e (orAll (e2 :: rest))

/-- Modelled from the spec: the merged predicate
`(p1 OR p2 OR ...) AND r1 AND r2 AND ...` (spec section 4.2). -/
def mergePredicates (perms restrs : List BExpr) : BExpr :=
  restrs.foldl BExpr.and (orAll perms)

def matchingPermissive (ps : List Policy) (op : String) : List Policy :=
  ps.filter fun p => matchesOperation p op && isPermissive p

def matchingRestrictive (ps : List Policy) (op : String) : List Policy :=
  ps.filter fun p => matchesOperation p op && !isPermissive p

/-- Modelled from the spec: the full predicate the query builder embeds
for one table and operation, from the enabled policy rows. -/
def mergedPolicyPredicate (ps : List Policy) (op : String) : BExpr :=
  mergePredicates ((matchingPermissive ps op).map (policyExprFor op))
    ((matchingRestrictive ps op).map (policyExprFor op))

/-! ## Sample data

Concrete catalog states, policies and claims used by the closed
counterexample and witness theorems below. -/

/-- A permissive policy on select. -/
def p1 : Policy :=
  { id := 1, name := some "p1", description := none, is_enabled := 1,
    operation := some "select", policy_type := some "PERMISSIVE",
    using_expr := some "owner = current_user", check_expr := none }

/-- A restrictive policy matching every operation. -/
def r1 : Policy :=
  { id := 2, name := some "r1", description := none, is_enabled := 1,
    operation := some "all", policy_type := some "RESTRICTIVE",
    using_expr := some "tenant_id = 1", check_expr := none }

/-- A sample truth assignment to policy expressions. -/
def sampleEnv : String → Bool := fun s => s == "owner = current_user"

/-- Sample claims value inside its own time window at instant 0. -/
def cSample : JWTClaims :=
  { subject := "u1", expiration := 3600000, issued_at := 0, issuer := "palmera",
    audience := "palmera-clients", not_before_time := -250, jwt_token_id := "tid-1" }

/-- Sample claims value whose audience and issuer differ from any
expected values. -/
def cAud : JWTClaims :=
  { subject := "u1", expiration := 1000, issued_at := 0, issuer := "other-issuer",
    audience := "other-audience", not_before_time := -250, jwt_token_id := "tid-2" }

/-- Catalog columns of a table whose column `a` is the source of two
foreign-key edges. -/
def c7txi : List TxiRow :=
  [⟨0, "id", "INTEGER", 1, none, 1, 0⟩, ⟨1, "a", "INTEGER", 0, none, 0, 0⟩]

/-- The two foreign-key rows both leaving column `a`. -/
def c7fkl : List FklRow :=
  [⟨0, 0, "p", "a", some "x", "NO ACTION", "NO ACTION"⟩,
    ⟨1, 0, "q", "a", some "y", "NO ACTION", "NO ACTION"⟩]

/-- Catalog columns of a users-style table with one foreign key. -/
def w7txi : List TxiRow :=
  [⟨0, "id", "INTEGER", 1, none, 1, 0⟩, ⟨1, "role_id", "INTEGER", 0, none, 0, 0⟩]

/-- The single foreign-key row of the users-style table. -/
def w7fkl : List FklRow :=
  [⟨0, 0, "roles", "role_id", some "id", "NO ACTION", "NO ACTION"⟩]

/-- Catalog columns of a table with one primary-key column and one
plain column. -/
def c8txi : List TxiRow :=
  [⟨0, "id", "INTEGER", 1, none, 1, 0⟩, ⟨1, "email", "TEXT", 1, none, 0, 0⟩]

/-! ## Theorems -/

/-- Evaluation of the OR-combination is the disjunction of the member
evaluations (false for the empty combination, the default-deny case). -/
theorem orAll_eval (env : String → Bool) (l : List BExpr) :
    (orAll l).eval env = l.any (BExpr.eval env) := by
  induction l with
  | nil => rfl
  | cons e rest ih =>
    cases rest with
    | nil => simp [orAll, BExpr.eval]
    | cons e2 r2 => simp [orAll, BExpr.eval, ih]

/-- Evaluation of a left fold of AND is the conjunction of the base
evaluation with all member evaluations. -/
theorem foldl_and_eval (env : String → Bool) (rs : List BExpr) (b : BExpr) :
    (rs.foldl BExpr.and b).eval env = (b.eval env && rs.all (BExpr.eval env)) := by
  induction rs generalizing b with
  | nil => simp
  | cons r rest ih => simp [List.foldl, ih, BExpr.eval, Bool.and_assoc]

/-- Claim C2: for every table, operation and set of enabled policies
matching the operation with at least one permissive policy, the merged
predicate evaluates, under every environment, to the OR of the matching
permissive expressions ANDed with every matching restrictive
expression.  (The policy-merge component is modelled from the spec; see
the definitions above.) -/
theorem c2_policy_merge_or_and (ps : List Policy) (op : String)
    (hperm : matchingPermissive ps op ≠ []) (env : String → Bool) :
    (mergedPolicyPredicate ps op).eval env =
      (((matchingPermissive ps op).map (policyExprFor op)).any (BExpr.eval env) &&
        ((matchingRestrictive ps op).map (policyExprFor op)).all (BExpr.eval env)) := by
  unfold mergedPolicyPredicate mergePredicates
  rw [foldl_and_eval, orAll_eval]

/-- Witness for C2 at a concrete policy set, operation and environment. -/
theorem c2_policy_merge_witness :
    matchingPermissive [p1, r1] "select" ≠ [] ∧
    (mergedPolicyPredicate [p1, r1] "select").eval sampleEnv =
      (((matchingPermissive [p1, r1] "select").map (policyExprFor "select")).any
          (BExpr.eval sampleEnv) &&
        ((matchingRestrictive [p1, r1] "select").map (policyExprFor "select")).all
          (BExpr.eval sampleEnv)) :=
  ⟨by decide, c2_policy_merge_or_and [p1, r1] "select" (by decide) sampleEnv⟩

/-- Claim C1 counterexample: a column name containing a semicolon,
whitespace and a double quote does not make the builder fail; the
statement is built successfully with the name interpolated as a quoted
identifier (embedded quote doubled).  No `InvalidColumnSet` failure
exists on this path. -/
theorem c1_counterexample :
    createInsertSql "public" "users" [("a; DROP \"x", "v")] =
      Except.ok
        "INSERT INTO \"public\".\"users\" (\"a; DROP \"\"x\") VALUES ('v') RETURNING row_to_json(users.*) as data" :=
  rfl

/-- Claim C1 (amended): the `create` path performs no identifier-shape
validation at all: building succeeds for every supplied set of column
names — names matching `[A-Za-z_][A-Za-z0-9_]*` and names containing
quotes, semicolons or whitespace alike — and payload column names are
interpolated as double-quoted identifiers with embedded double quotes
doubled rather than being checked. -/
theorem c1_no_identifier_validation (schema table : String)
    (fields : List (String × String)) :
    ∃ sql, createInsertSql schema table fields = Except.ok sql := by
  unfold createInsertSql
  simp [List.length_map]

/-- Claim C9 counterexample: an insert request supplying zero columns is
not rejected; the builder succeeds and produces a statement with an
empty column list. -/
theorem c9_counterexample :
    createInsertSql "public" "users" [] =
      Except.ok "INSERT INTO \"public\".\"users\" () RETURNING row_to_json(users.*) as data" :=
  rfl

/-- Claim C9 (amended): a zero-column insert is not rejected by the
builder: for every schema and table it succeeds, emitting
`INSERT INTO "schema"."table" ()` followed by the `RETURNING` clause;
no `EmptyWriteSet` error exists, and the malformed statement can fail
only at execution time. -/
theorem c9_empty_insert_not_rejected (schema table : String) :
    createInsertSql schema table [] =
      Except.ok ("INSERT INTO " ++ quoteIden schema ++ "." ++ quoteIden table ++ " ()" ++
        " RETURNING row_to_json(" ++ table ++ ".*) as data") :=
  rfl

/-- Claim C4 counterexample: the integral number `2^63` (representable
in a JSON document, exceeding `i64::MAX`) is mapped to a double
parameter — not to a 64-bit signed integer and not to the string
fallback. -/
theorem c4_counterexample :
    (json_to_sea (.num (.posInt 9223372036854775808))).kind = SeaKind.double ∧
    (json_to_sea (.num (.posInt 9223372036854775808))).kind ≠ SeaKind.bigInt ∧
    (json_to_sea (.num (.posInt 9223372036854775808))).kind ≠ SeaKind.str := by
  decide

/-- Claim C4 (amended): the value mapper is total and maps null to a
SQL NULL, booleans to booleans, integral numbers within the signed
64-bit range to 64-bit integers, all other numbers — non-integral ones
and integral ones exceeding the signed 64-bit range — to 64-bit floats
(the latter lossily), strings to strings, and arrays and objects to
JSON parameters; the string fallback for numbers is unreachable. -/
theorem c4_value_mapper_amended :
    (json_to_sea .null = .boolV none) ∧
    (∀ b, json_to_sea (.bool b) = .boolV (some b)) ∧
    (∀ n : Nat, n ≤ i64Max → json_to_sea (.num (.posInt n)) = .bigIntV (some (Int.ofNat n))) ∧
    (∀ n : Nat, i64Max < n → json_to_sea (.num (.posInt n)) = .doubleV (some (.ofPosInt n))) ∧
    (∀ i : Int, json_to_sea (.num (.negInt i)) = .bigIntV (some i)) ∧
    (∀ b : Nat, json_to_sea (.num (.float b)) = .doubleV (some (.lit b))) ∧
    (∀ n : JNum, (json_to_sea (.num n)).kind ≠ SeaKind.str) ∧
    (∀ s, json_to_sea (.str s) = .stringV (some s)) ∧
    (∀ xs, json_to_sea (.arr xs) = .jsonV (some (.arr xs))) ∧
    (∀ kvs, json_to_sea (.obj kvs) = .jsonV (some (.obj kvs))) := by
  refine ⟨rfl, fun b => rfl, ?_, ?_, fun i => rfl, fun b => rfl, ?_, fun s => rfl,
    fun xs => rfl, fun kvs => rfl⟩
  · intro n h
    simp [json_to_sea, JNum.as_i64, h]
  · intro n h
    simp [json_to_sea, JNum.as_i64, JNum.as_f64, Nat.not_le.mpr h]
  · intro n
    cases n with
    | posInt m =>
      by_cases hm : m ≤ i64Max <;>
        simp [json_to_sea, JNum.as_i64, JNum.as_f64, hm, SeaValue.kind]
    | negInt i => simp [json_to_sea, JNum.as_i64, SeaValue.kind]
    | float b => simp [json_to_sea, JNum.as_i64, JNum.as_f64, SeaValue.kind]

/-- Witness for C4 at concrete numbers on both sides of the signed
64-bit boundary. -/
theorem c4_witness :
    json_to_sea (.num (.posInt 42)) = .bigIntV (some (Int.ofNat 42)) ∧
    json_to_sea (.num (.posInt 9223372036854775808)) =
      .doubleV (some (.ofPosInt 9223372036854775808)) :=
  ⟨c4_value_mapper_amended.2.2.1 42 (by decide),
    c4_value_mapper_amended.2.2.2.1 9223372036854775808 (by decide)⟩

/-- Claim C10: every claims value produced by `JWTClaims::new` has
`not_before_time` equal to `issued_at` minus exactly 250 milliseconds,
for every subject, issuer, audience, ttl, clock reading and token id;
the skew is the fixed literal 250 ms, independent of the ttl. -/
theorem c10_skew_constant_250ms (subject : String) (ttl : Int) (issuer audience : String)
    (now : Int) (jti : String) :
    (JWTClaims.new subject ttl issuer audience now jti).not_before_time =
      (JWTClaims.new subject ttl issuer audience now jti).issued_at - 250 :=
  rfl

/-- Claim C6 counterexample: with the negative ttl the repository's own
test suite exercises (`Duration::seconds(-1)`), `new` produces claims
with `expiration` before `issued_at`, violating
`not_before ≤ issued_at < expiration`. -/
theorem c6_counterexample :
    ¬ ((JWTClaims.new "u1" (-1000) "issuer" "audience" 0 "jti").issued_at <
        (JWTClaims.new "u1" (-1000) "issuer" "audience" 0 "jti").expiration) := by
  decide

/-- Claim C6 (amended): every claims value produced by `new` with a
positive ttl satisfies `not_before ≤ issued_at < expiration`; for a
zero or negative ttl the right inequality fails. -/
theorem c6_claims_window_invariant (subject : String) (ttl : Int) (issuer audience : String)
    (now : Int) (jti : String) (httl : 0 < ttl) :
    (JWTClaims.new subject ttl issuer audience now jti).not_before_time ≤
      (JWTClaims.new subject ttl issuer audience now jti).issued_at ∧
    (JWTClaims.new subject ttl issuer audience now jti).issued_at <
      (JWTClaims.new subject ttl issuer audience now jti).expiration := by
  refine ⟨?_, ?_⟩ <;> simp [JWTClaims.new] <;> omega

/-- Witness for C6 at a one-hour ttl. -/
theorem c6_witness :
    (0 : Int) < 3600000 ∧
    ((JWTClaims.new "u1" 3600000 "iss" "aud" 1000 "jti").not_before_time ≤
        (JWTClaims.new "u1" 3600000 "iss" "aud" 1000 "jti").issued_at ∧
      (JWTClaims.new "u1" 3600000 "iss" "aud" 1000 "jti").issued_at <
        (JWTClaims.new "u1" 3600000 "iss" "aud" 1000 "jti").expiration) :=
  ⟨by decide, c6_claims_window_invariant "u1" 3600000 "iss" "aud" 1000 "jti" (by decide)⟩

/-- Claim C5: signing any claims value and immediately verifying the
token with the same key, at any instant inside the claims time window,
succeeds and returns claims equal to the original — in particular
subject, issuer, audience and token id are preserved. -/
theorem c5_sign_verify_roundtrip (c : JWTClaims) (key : String) (now : Int)
    (h1 : c.not_before_time ≤ now) (h2 : now ≤ c.expiration) :
    JWTClaims.verify (c.sign key) key now = .ok c := by
  have hexp : ¬ now > c.expiration := not_lt.mpr h2
  have hnbf : ¬ now < c.not_before_time := not_lt.mpr h1
  simp [JWTClaims.verify, JWTClaims.sign, hexp, hnbf]

/-- Witness for C5 at a concrete claims value, key and instant. -/
theorem c5_witness :
    cSample.not_before_time ≤ 0 ∧ (0 : Int) ≤ cSample.expiration ∧
    JWTClaims.verify (cSample.sign "secret") "secret" 0 = .ok cSample :=
  ⟨by decide, by decide, c5_sign_verify_roundtrip cSample "secret" 0 (by decide) (by decide)⟩

/-- Claim C3 counterexample: a token whose signature verifies and whose
time window contains the instant is accepted even though its audience
differs from the expected audience — `verify` succeeds instead of
failing with `AudienceMismatch` (no such error exists; `verify` does
not even receive an expected audience or issuer). -/
theorem c3_counterexample :
    JWTClaims.verify (cAud.sign "k") "k" 10 = .ok cAud ∧
    cAud.audience ≠ "expected-audience" ∧ cAud.issuer ≠ "expected-issuer" := by
  refine ⟨rfl, by decide, by decide⟩

/-- Claim C3 (amended): `verify` takes only the token and the key and
performs no audience or issuer comparison: every token with a valid
signature whose time window contains the instant verifies successfully,
even when its audience and issuer both differ from the values a caller
expected. -/
theorem c3_verify_ignores_audience_issuer (c : JWTClaims) (key : String) (now : Int)
    (expectedIssuer expectedAudience : String)
    (h1 : c.not_before_time ≤ now) (h2 : now ≤ c.expiration)
    (hiss : c.issuer ≠ expectedIssuer) (haud : c.audience ≠ expectedAudience) :
    JWTClaims.verify (c.sign key) key now = .ok c := by
  have hexp : ¬ now > c.expiration := not_lt.mpr h2
  have hnbf : ¬ now < c.not_before_time := not_lt.mpr h1
  simp [JWTClaims.verify, JWTClaims.sign, hexp, hnbf]

/-- Witness for C3 at a concrete mismatched audience and issuer. -/
theorem c3_witness :
    cAud.not_before_time ≤ 10 ∧ (10 : Int) ≤ cAud.expiration ∧
    cAud.audience ≠ "expected-audience" ∧
    JWTClaims.verify (cAud.sign "k") "k" 10 = .ok cAud :=
  ⟨by decide, by decide, by decide,
    c3_verify_ignores_audience_issuer cAud "k" 10 "expected-issuer" "expected-audience"
      (by decide) (by decide) (by decide) (by decide)⟩

/-- When every catalog column matches at most one foreign-key row, the
left-join expansion of one column is a single output row carrying the
head of the matching rows. -/
theorem joinRows_single (t : TxiRow) (fkl : List FklRow) (indexes : List IndexRow)
    (h : (fkl.filter fun f => f.fromCol == t.name).length ≤ 1) :
    joinRows t fkl indexes =
      [mkColumnRow t (fkl.filter fun f => f.fromCol == t.name).head? indexes] := by
  unfold joinRows
  cases hf : fkl.filter fun f => f.fromCol == t.name with
  | nil => simp
  | cons f rest =>
    rw [hf] at h
    have hr : rest = [] := by
      cases rest with
      | nil => rfl
      | cons g gs => simp at h
    subst hr
    simp

/-- Under the one-foreign-key-per-column hypothesis, the column
aggregation is exactly one output row per catalog column, in catalog
order. -/
theorem columnsQuery_eq_map (txi : List TxiRow) (fkl : List FklRow) (indexes : List IndexRow)
    (hfk : ∀ t ∈ txi, (fkl.filter fun f => f.fromCol == t.name).length ≤ 1) :
    columnsQuery txi fkl indexes =
      txi.map fun t =>
        mkColumnRow t (fkl.filter fun f => f.fromCol == t.name).head? indexes := by
  induction txi with
  | nil => rfl
  | cons t ts ih =>
    simp only [columnsQuery, List.map]
    rw [joinRows_single t fkl indexes (hfk t (by simp)),
      ih fun u hu => hfk u (by simp [hu])]
    rfl

/-- Claim C7 counterexample: a legal table (unique column names, one
column the source of two foreign-key edges, as produced by
`a INTEGER REFERENCES p(x) REFERENCES q(y)`) yields a descriptor that
lists that column twice. -/
theorem c7_counterexample :
    ((c7txi.map TxiRow.name).Nodup) ∧
    ¬ (((columnsQuery c7txi c7fkl []).map ColumnDetails.column_name).Nodup) := by
  decide

/-- Claim C7 (amended): the descriptor lists each column exactly once
and in catalog order provided no column is the source of more than one
foreign-key edge; a column matching several foreign-key rows is listed
once per matching row. -/
theorem c7_columns_unique_ordered (txi : List TxiRow) (fkl : List FklRow)
    (indexes : List IndexRow)
    (hnodup : (txi.map TxiRow.name).Nodup)
    (hfk : ∀ t ∈ txi, (fkl.filter fun f => f.fromCol == t.name).length ≤ 1) :
    ((columnsQuery txi fkl indexes).map ColumnDetails.column_name = txi.map TxiRow.name) ∧
    ((columnsQuery txi fkl indexes).map ColumnDetails.column_id =
      txi.map fun t => some t.cid) ∧
    (((columnsQuery txi fkl indexes).map ColumnDetails.column_name).Nodup) := by
  have he := columnsQuery_eq_map txi fkl indexes hfk
  refine ⟨?_, ?_, ?_⟩ <;> rw [he]
  · simp [List.map_map, Function.comp, mkColumnRow]
  · simp [List.map_map, Function.comp, mkColumnRow]
  · simpa [List.map_map, Function.comp, mkColumnRow] using hnodup

/-- Witness for C7 on a users-style table with one foreign key. -/
theorem c7_witness :
    (w7txi.map TxiRow.name).Nodup ∧
    (((columnsQuery w7txi w7fkl []).map ColumnDetails.column_name).Nodup) :=
  ⟨by decide, (c7_columns_unique_ordered w7txi w7fkl [] (by decide) (by decide)).2.2⟩

/-- Every output row of the left-join expansion of one catalog column is
built by `mkColumnRow` from that column and an optional foreign-key
row. -/
theorem mem_joinRows (t : TxiRow) (fkl : List FklRow) (indexes : List IndexRow)
    (row : ColumnDetails) (h : row ∈ joinRows t fkl indexes) :
    ∃ fk, row = mkColumnRow t fk indexes := by
  unfold joinRows at h
  split at h
  · exact ⟨none, by simpa using h⟩
  · rcases List.mem_map.1 h with ⟨f, _, rfl⟩
    exact ⟨some f, rfl⟩

/-- Claim C8 counterexample: for a table with a non-primary-key column,
the descriptor carries `primary_key_order = 0` on that column — the
field is present (with the SQLite ordinal 0), not absent. -/
theorem c8_counterexample :
    ((columnsQuery c8txi [] []).map ColumnDetails.is_primary_key = [1, 0]) ∧
    ((columnsQuery c8txi [] []).map ColumnDetails.primary_key_order =
      [some 1, some 0]) := by
  decide

/-- Claim C8 (amended): in every descriptor row produced by the column
aggregation (over a catalog with non-negative primary-key ordinals), a
column that is not a primary key carries `primary_key_order = 0`
(present, not absent), and a column with no matched foreign key has all
four foreign-key sub-fields absent. -/
theorem c8_descriptor_field_presence (txi : List TxiRow) (fkl : List FklRow)
    (indexes : List IndexRow)
    (hpk : ∀ t ∈ txi, 0 ≤ t.pk) (row : ColumnDetails)
    (hrow : row ∈ columnsQuery txi fkl indexes) :
    (row.is_primary_key = 0 → row.primary_key_order = some 0) ∧
    (row.is_foreign_key = 0 → row.reference_table = none ∧ row.reference_column = none ∧
      row.foreign_key_on_update = none ∧ row.foreign_key_on_delete = none) := by
  induction txi with
  | nil => simp [columnsQuery] at hrow
  | cons t ts ih =>
    simp only [columnsQuery] at hrow
    rcases List.mem_append.1 hrow with hl | hr
    · rcases mem_joinRows t fkl indexes row hl with ⟨fk, rfl⟩
      have hp0 : 0 ≤ t.pk := hpk t (by simp)
      constructor
      · intro h0
        by_cases hp : t.pk > 0
        · simp [mkColumnRow, hp] at h0
        · have hz : t.pk = 0 := by omega
          simp [mkColumnRow, hz]
      · intro h1
        cases fk with
        | some f => simp [mkColumnRow] at h1
        | none => simp [mkColumnRow]
    · exact ih (fun u hu => hpk u (by simp [hu])) hr

/-- Witness for C8 at a concrete catalog and output row. -/
theorem c8_witness :
    (mkColumnRow ⟨1, "email", "TEXT", 1, none, 0, 0⟩ none []).is_primary_key = 0 ∧
    (mkColumnRow ⟨1, "email", "TEXT", 1, none, 0, 0⟩ none []).primary_key_order = some 0 :=
  ⟨by decide,
    (c8_descriptor_field_presence c8txi [] [] (by decide)
        (mkColumnRow ⟨1, "email", "TEXT", 1, none, 0, 0⟩ none []) (by decide)).1 (by decide)⟩

end Palmera
